import Mathlib

/-!
Shallow embedding of `audio_player.py` (class `AudioManager`): device
resolution at construction, the diagnostic device listing, and the
`play_audio` method (playback start, duration resolution by extension,
blocking sleep, optional delete-after-playback with its error handling).

External effects (pygame mixer calls, prints, sleeps, file removal) are
recorded as an explicit trace of events; the ambient environment (SDL2
availability, the device enumeration result, file metadata, the outcome
of `os.remove`) is passed in explicitly.  Durations are modelled as
rationals.  Exceptions that escape to the caller are modelled with an
explicit outcome value; a Python `try`/`except` becomes a `match` on the
fallible operation's result.
-/

/-- Observable events emitted by the code, in order. -/
inductive Event where
  | preInit (device : String)
  | mixerInit
  | musicLoad (path : String)
  | musicPlay
  | soundNew (path : String)
  | soundPlay
  | wavOpen (path : String)
  | wavClose (path : String)
  | mp3Read (path : String)
  | mp3Decode (path : String)
  | sleep (seconds : ℚ)
  | musicStop
  | mixerQuit
  | removeAttempt (path : String)
  | printDeleted
  | printPermissionDenied (path : String)
  | printUnknownType
  | printSetupError (e : String)
  | printDeviceList (devices : List String)
  | printFound (device : String)
  | printNotFound
  | printDevices (outs ins : List String)
  | printEnumError (e : String)
  | printNoSdl2
  deriving DecidableEq

/-- One call to `sdl2_audio.get_audio_device_names`: it returns a list of
device names or raises an exception. -/
inductive EnumResult where
  | ok (devices : List String)
  | raise (e : String)
  deriving DecidableEq

/-- Outcome of `os.remove(file_path)`. -/
inductive RemoveOutcome where
  | ok
  | permissionError
  | otherError (e : String)
  deriving DecidableEq

/-- Filesystem / metadata collaborators: per-path wav frame count and
sample rate (`sf.SoundFile`), per-path mp3 header duration
(`MP3(...).info.length`), and the behaviour of `os.remove`. -/
structure FS where
  wavFrames : String → Nat
  wavRate : String → Nat
  mp3Length : String → ℚ
  removeResult : String → RemoveOutcome

/-- How a `play_audio` call returns to its caller. -/
inductive ExcOutcome where
  | normal
  | raised (e : String)
  deriving DecidableEq

/-- The two instance attributes set by `AudioManager.__init__`. -/
structure AudioManager where
  device_name : Option String
  target_device : Option String
  deriving DecidableEq

/-- Python truthiness of `device_name` (falsy when `None` or `""`). -/
def pyTruthy : Option String → Bool
  | none => false
  | some s => !s.isEmpty

/-- `Char.toLower`, the model of Python `str.lower()` applied charwise. -/
def strLower (s : String) : String :=
  ⟨s.data.map Char.toLower⟩

/-- Whether `needle` is a leading segment of `hay` (char lists). -/
def listStartsWith : List Char → List Char → Bool
  | [], _ => true
  | _ :: _, [] => false
  | a :: as, b :: bs => a == b && listStartsWith as bs

/-- Whether `needle` occurs contiguously inside `hay`: Python `in` on
strings, over char lists. -/
def listHasSub (needle : List Char) : List Char → Bool
  | [] => needle.isEmpty
  | b :: bs => listStartsWith needle (b :: bs) || listHasSub needle bs

/-- `device_name.lower() in device.lower()` from the `__init__` loop. -/
def deviceMatch (requested device : String) : Bool :=
  listHasSub (strLower requested).data (strLower device).data

/-- Index of the last occurrence of `c`, or `none`. -/
def lastIdx (c : Char) : List Char → Option Nat
  | [] => none
  | x :: xs =>
    match lastIdx c xs with
    | some j => some (j + 1)
    | none => if x == c then some 0 else none

/-- `rfind` convention: the index, or `-1` when absent. -/
def idxToInt : Option Nat → Int
  | some i => (i : Int)
  | none => -1

/-- The extension part of `os.path.splitext(p)` (posix separator `/`):
the suffix from the last dot, provided that dot lies after the last
separator and the basename has a non-dot character before it. -/
def splitextExt (p : String) : String :=
  let cs := p.data
  let sepIndex := idxToInt (lastIdx '/' cs)
  let dotIndex := idxToInt (lastIdx '.' cs)
  if sepIndex < dotIndex then
    if (List.range cs.length).any
        (fun k => decide (sepIndex < (k : Int)) && decide ((k : Int) < dotIndex)
          && (cs.getD k '.' != '.')) then
      ⟨cs.drop dotIndex.toNat⟩
    else ""
  else ""

/-- The device-resolution loop of `__init__`: runs only when
`device_name` is truthy and SDL2 audio is importable; an exception from
enumeration is caught and yields no selection; otherwise the first
enumerated output device whose lowercased name contains the lowercased
requested name is selected. -/
def resolveTarget (device_name : Option String) (sdl2 : Bool) (enum : EnumResult) :
    Option String :=
  match device_name with
  | none => none
  | some name =>
    if name.isEmpty then none
    else if sdl2 then
      match enum with
      | EnumResult.ok devs => devs.find? (deviceMatch name)
      | EnumResult.raise _ => none
    else none

/-- Result of running `AudioManager.__init__`. -/
structure InitOutcome where
  manager : AudioManager
  trace : List Event
  deriving DecidableEq

/-- `AudioManager.__init__(device_name)`: resolve the target device
(absorbing any enumeration exception), print diagnostics, then call
`pygame.mixer.init()`.  The `Except` layer records whether an exception
escapes to the caller; no branch of the body re-raises. -/
def construct (device_name : Option String) (sdl2 : Bool) (enum : EnumResult) :
    Except String InitOutcome :=
  let target := resolveTarget device_name sdl2 enum
  let t :=
    (if pyTruthy device_name && sdl2 then
      match enum with
      | EnumResult.raise e => [Event.printSetupError e]
      | EnumResult.ok devs =>
        [Event.printDeviceList devs] ++
          (match target with
           | some d => [Event.printFound d]
           | none => [Event.printNotFound])
     else []) ++ [Event.mixerInit]
  Except.ok { manager := { device_name := device_name, target_device := target },
              trace := t }

/-- `AudioManager.list_devices`: enumerate output then input devices and
print them; an enumeration exception is caught and printed; absence of
SDL2 audio is printed.  No branch re-raises. -/
def list_devices (sdl2 : Bool) (enumOut enumIn : EnumResult) :
    Except String (List Event) :=
  if sdl2 then
    match enumOut with
    | EnumResult.raise e => Except.ok [Event.printEnumError e]
    | EnumResult.ok outs =>
      match enumIn with
      | EnumResult.raise e => Except.ok [Event.printEnumError e]
      | EnumResult.ok ins => Except.ok [Event.printDevices outs ins]
  else Except.ok [Event.printNoSdl2]

/-- The duration-computation block of `play_audio` (lines 92-103):
dispatch on the lowercased extension; `.wav` opens the file with
soundfile, computes `frames / samplerate` and closes the handle; `.mp3`
reads the header-declared length; anything else prints the
unknown-file-type message and yields no duration. -/
def resolveDuration (fs : FS) (file_path : String) : Option ℚ × List Event :=
  if strLower (splitextExt file_path) = ".wav" then
    (some ((fs.wavFrames file_path : ℚ) / (fs.wavRate file_path : ℚ)),
      [Event.wavOpen file_path, Event.wavClose file_path])
  else if strLower (splitextExt file_path) = ".mp3" then
    (some (fs.mp3Length file_path), [Event.mp3Read file_path])
  else
    (none, [Event.printUnknownType])

/-- The playback-start prefix of every `play_audio` call: optional
`pre_init` on a truthy target device, `mixer.init()`, then either
music-mode load+play or Sound-mode construct+play. -/
def playStartTrace (m : AudioManager) (file_path : String) (play_using_music : Bool) :
    List Event :=
  (match m.target_device with
   | some d => if d.isEmpty then [] else [Event.preInit d]
   | none => []) ++
  [Event.mixerInit] ++
  (if play_using_music then [Event.musicLoad file_path, Event.musicPlay]
   else [Event.soundNew file_path, Event.soundPlay])

/-- The `sleep_during_playback` suffix of `play_audio`: resolve the
duration (returning early on an unknown extension), sleep for it, and
when `delete_file` is set stop the music, quit the mixer and attempt
`os.remove`, catching only `PermissionError`.  Yields the emitted
events, how the call returns, and whether the file was removed. -/
def playWaitPhase (fs : FS) (file_path : String) (delete_file : Bool) :
    List Event × ExcOutcome × Bool :=
  match resolveDuration fs file_path with
  | (some len, dt) =>
    if delete_file then
      match fs.removeResult file_path with
      | RemoveOutcome.ok =>
        (dt ++ [Event.sleep len, Event.musicStop, Event.mixerQuit,
           Event.removeAttempt file_path, Event.printDeleted],
         ExcOutcome.normal, true)
      | RemoveOutcome.permissionError =>
        (dt ++ [Event.sleep len, Event.musicStop, Event.mixerQuit,
           Event.removeAttempt file_path, Event.printPermissionDenied file_path],
         ExcOutcome.normal, false)
      | RemoveOutcome.otherError e =>
        (dt ++ [Event.sleep len, Event.musicStop, Event.mixerQuit,
           Event.removeAttempt file_path],
         ExcOutcome.raised e, false)
    else (dt ++ [Event.sleep len], ExcOutcome.normal, false)
  | (none, dt) => (dt, ExcOutcome.normal, false)

/-- Result of one `play_audio` call: the (unchanged) instance state it
leaves behind, the event trace, how it returns, and whether the file
was removed from disk. -/
structure PlayOutcome where
  manager : AudioManager
  trace : List Event
  result : ExcOutcome
  fileDeleted : Bool
  deriving DecidableEq

set_option linter.unusedVariables false in
/-- `AudioManager.play_audio(file_path, sleep_during_playback,
delete_file, play_using_music)`.  `currentOutputDevices` models the
device list the subsystem would report at call time; the method never
queries it (it only reads `self.target_device`), which the parameter
makes checkable. -/
def play (m : AudioManager) (fs : FS) (currentOutputDevices : List String)
    (file_path : String) (sleep_during_playback delete_file play_using_music : Bool) :
    PlayOutcome :=
  let tail :=
    if sleep_during_playback then playWaitPhase fs file_path delete_file
    else ([], ExcOutcome.normal, false)
  { manager := m
    trace := playStartTrace m file_path play_using_music ++ tail.1
    result := tail.2.1
    fileDeleted := tail.2.2 }

/-- A concrete manager as produced by a successful device resolution. -/
def sampleManager : AudioManager :=
  { device_name := some "mix", target_device := some "MIXLINE A" }

/-- A concrete filesystem: every wav has 88200 frames at 44100 Hz, every
mp3 declares 7/2 seconds, `locked.mp3` is permission-locked against
removal and `gone.wav` raises a non-permission error on removal. -/
def sampleFS : FS where
  wavFrames := fun _ => 88200
  wavRate := fun _ => 44100
  mp3Length := fun _ => 7 / 2
  removeResult := fun p =>
    if p = "locked.mp3" then RemoveOutcome.permissionError
    else if p = "gone.wav" then RemoveOutcome.otherError "FileNotFoundError"
    else RemoveOutcome.ok

theorem resolveDuration_wav (fs : FS) (p : String)
    (h : strLower (splitextExt p) = ".wav") :
    resolveDuration fs p =
      (some ((fs.wavFrames p : ℚ) / (fs.wavRate p : ℚ)),
        [Event.wavOpen p, Event.wavClose p]) := by
  simp [resolveDuration, h]

theorem resolveDuration_mp3 (fs : FS) (p : String)
    (h : strLower (splitextExt p) = ".mp3") :
    resolveDuration fs p = (some (fs.mp3Length p), [Event.mp3Read p]) := by
  simp [resolveDuration, h]

theorem resolveDuration_other (fs : FS) (p : String)
    (h1 : strLower (splitextExt p) ≠ ".wav") (h2 : strLower (splitextExt p) ≠ ".mp3") :
    resolveDuration fs p = (none, [Event.printUnknownType]) := by
  simp [resolveDuration, h1, h2]

theorem resolveDuration_snd_cases (fs : FS) (p : String) :
    (resolveDuration fs p).2 = [Event.wavOpen p, Event.wavClose p] ∨
    (resolveDuration fs p).2 = [Event.mp3Read p] ∨
    (resolveDuration fs p).2 = [Event.printUnknownType] := by
  unfold resolveDuration
  split
  · exact Or.inl rfl
  · split
    · exact Or.inr (Or.inl rfl)
    · exact Or.inr (Or.inr rfl)

theorem mem_playStartTrace (m : AudioManager) (p : String) (pm : Bool) (e : Event) :
    e ∈ playStartTrace m p pm ↔
      ((∃ dev, m.target_device = some dev ∧ dev.isEmpty = false ∧ e = Event.preInit dev) ∨
        e = Event.mixerInit ∨
        (pm = true ∧ (e = Event.musicLoad p ∨ e = Event.musicPlay)) ∨
        (pm = false ∧ (e = Event.soundNew p ∨ e = Event.soundPlay))) := by
  cases htd : m.target_device with
  | none => cases pm <;> simp [playStartTrace, htd]
  | some dev =>
    cases pm <;> by_cases hde : dev.isEmpty <;>
      simp [playStartTrace, htd, hde]

/-- Claim C1: with `sleep_during_playback` set and an extension that is
neither `.wav` nor `.mp3` (case-insensitively), `play_audio` aborts the
remaining steps: it emits no sleep, never attempts deletion, prints the
unknown-file-type condition, and returns normally without stopping the
playback it already started. -/
theorem c1_unsupported_format_aborts (m : AudioManager) (fs : FS) (devs : List String)
    (p : String) (delete_file play_using_music : Bool)
    (h1 : strLower (splitextExt p) ≠ ".wav") (h2 : strLower (splitextExt p) ≠ ".mp3") :
    (play m fs devs p true delete_file play_using_music).result = ExcOutcome.normal ∧
    (play m fs devs p true delete_file play_using_music).fileDeleted = false ∧
    (∀ q, Event.sleep q ∉ (play m fs devs p true delete_file play_using_music).trace) ∧
    Event.removeAttempt p ∉ (play m fs devs p true delete_file play_using_music).trace ∧
    Event.musicStop ∉ (play m fs devs p true delete_file play_using_music).trace ∧
    Event.mixerQuit ∉ (play m fs devs p true delete_file play_using_music).trace ∧
    Event.printUnknownType ∈ (play m fs devs p true delete_file play_using_music).trace ∧
    (play_using_music = true →
      Event.musicPlay ∈ (play m fs devs p true delete_file play_using_music).trace) ∧
    (play_using_music = false →
      Event.soundPlay ∈ (play m fs devs p true delete_file play_using_music).trace) := by
  have hd := resolveDuration_other fs p h1 h2
  simp [play, playWaitPhase, hd, mem_playStartTrace]

/-- Claim C1 witness: at the concrete path `b.ogg` the call returns
normally, deletes nothing, and reports the unknown file type. -/
theorem c1_witness :
    (play sampleManager sampleFS [] "b.ogg" true true true).result = ExcOutcome.normal ∧
    (play sampleManager sampleFS [] "b.ogg" true true true).fileDeleted = false ∧
    Event.printUnknownType ∈ (play sampleManager sampleFS [] "b.ogg" true true true).trace := by
  have h := c1_unsupported_format_aborts sampleManager sampleFS [] "b.ogg" true true
    (by decide) (by decide)
  exact ⟨h.1, h.2.1, h.2.2.2.2.2.2.1⟩

/-- Claim C2: duration resolution dispatches case-insensitively on the
extension; on `.wav` it yields `frames / samplerate` and its trace is
exactly open-then-close of the soundfile handle (the handle does not
outlive the call); on `.mp3` it yields the header-declared length with
no decoding event. -/
theorem c2_duration_resolution (fs : FS) (p : String) :
    (strLower (splitextExt p) = ".wav" →
      (resolveDuration fs p).1 = some ((fs.wavFrames p : ℚ) / (fs.wavRate p : ℚ)) ∧
      (resolveDuration fs p).2 = [Event.wavOpen p, Event.wavClose p] ∧
      Event.wavClose p ∈ (resolveDuration fs p).2) ∧
    (strLower (splitextExt p) = ".mp3" →
      (resolveDuration fs p).1 = some (fs.mp3Length p) ∧
      (resolveDuration fs p).2 = [Event.mp3Read p] ∧
      ∀ q, Event.mp3Decode q ∉ (resolveDuration fs p).2) := by
  constructor
  · intro h
    rw [resolveDuration_wav fs p h]
    simp
  · intro h
    rw [resolveDuration_mp3 fs p h]
    simp

/-- Claim C2 witness: on the concrete uppercase paths `A.WAV` and
`t.MP3` resolution yields `88200 / 44100 = 2` and the declared `7/2`
respectively. -/
theorem c2_witness :
    (resolveDuration sampleFS "A.WAV").1 = some 2 ∧
    (resolveDuration sampleFS "t.MP3").1 = some (7 / 2) := by
  have hw := (c2_duration_resolution sampleFS "A.WAV").1 (by decide)
  have hm := (c2_duration_resolution sampleFS "t.MP3").2 (by decide)
  refine ⟨?_, ?_⟩
  · rw [hw.1]
    norm_num [sampleFS]
  · rw [hm.1]
    rfl

/-- Claim C3: device resolution returns the first enumerated output
device whose name contains the requested name case-insensitively;
absent (with construction still succeeding) when nothing matches, when
no name is requested (including the falsy empty string), or when SDL2
enumeration is unavailable. -/
theorem c3_device_resolution (dn : Option String) (sdl2 : Bool) (enum : EnumResult) :
    (∃ o, construct dn sdl2 enum = Except.ok o ∧
      o.manager.target_device = resolveTarget dn sdl2 enum) ∧
    ((dn = none ∨ dn = some "" ∨ sdl2 = false) → resolveTarget dn sdl2 enum = none) ∧
    (∀ name devs, dn = some name → name.isEmpty = false → sdl2 = true →
      enum = EnumResult.ok devs →
      resolveTarget dn sdl2 enum = devs.find? (deviceMatch name) ∧
      (∀ d, devs.find? (deviceMatch name) = some d →
        deviceMatch name d = true ∧
        ∃ l1 l2, devs = l1 ++ d :: l2 ∧ ∀ x ∈ l1, deviceMatch name x = false) ∧
      ((∀ d ∈ devs, deviceMatch name d = false) → resolveTarget dn sdl2 enum = none)) := by
  refine ⟨⟨_, rfl, rfl⟩, ?_, ?_⟩
  · rintro (rfl | rfl | rfl)
    · rfl
    · rfl
    · cases dn with
      | none => rfl
      | some name =>
        by_cases hne : name.isEmpty <;> simp [resolveTarget, hne]
  · rintro name devs rfl hnei rfl rfl
    refine ⟨by simp [resolveTarget, hnei], ?_, ?_⟩
    · intro d hd
      have := List.find?_eq_some.mp hd
      refine ⟨this.1, ?_⟩
      obtain ⟨l1, l2, hsplit, hall⟩ := this.2
      exact ⟨l1, l2, hsplit, fun x hx => by simpa using hall x hx⟩
    · intro hnone
      simp [resolveTarget, hnei]
      exact hnone

/-- Claim C3 witness: requesting `mix` against a concrete device list
selects the first case-insensitive match, and requesting nothing
resolves to absent. -/
theorem c3_witness :
    resolveTarget (some "mix") true (EnumResult.ok ["Speakers", "MIXLINE A", "mix B"]) =
      List.find? (deviceMatch "mix") ["Speakers", "MIXLINE A", "mix B"] ∧
    resolveTarget none true (EnumResult.ok ["Speakers"]) = none := by
  refine ⟨?_, ?_⟩
  · exact ((c3_device_resolution (some "mix") true
      (EnumResult.ok ["Speakers", "MIXLINE A", "mix B"])).2.2 "mix"
      ["Speakers", "MIXLINE A", "mix B"] rfl (by decide) rfl rfl).1
  · exact (c3_device_resolution none true (EnumResult.ok ["Speakers"])).2.1 (Or.inl rfl)

theorem playWaitPhase_delete_decomp (fs : FS) (p : String) (len : ℚ) (dt : List Event)
    (hr : resolveDuration fs p = (some len, dt)) :
    ∃ t2, (playWaitPhase fs p true).1 =
      (dt ++ [Event.sleep len]) ++
        [Event.musicStop, Event.mixerQuit, Event.removeAttempt p] ++ t2 := by
  cases hrm : fs.removeResult p with
  | ok => exact ⟨[Event.printDeleted], by simp [playWaitPhase, hr, hrm]⟩
  | permissionError =>
    exact ⟨[Event.printPermissionDenied p], by simp [playWaitPhase, hr, hrm]⟩
  | otherError e => exact ⟨[], by simp [playWaitPhase, hr, hrm]⟩

/-- Claim C4: whenever a `play_audio` call attempts to delete the file,
its trace stops the music and quits the mixer immediately before the
removal attempt, so deletion is never attempted with the subsystem
still initialized. -/
theorem c4_stop_quit_before_delete (m : AudioManager) (fs : FS) (devs : List String)
    (p : String) (s d pm : Bool)
    (h : Event.removeAttempt p ∈ (play m fs devs p s d pm).trace) :
    ∃ t1 t2, (play m fs devs p s d pm).trace =
      t1 ++ [Event.musicStop, Event.mixerQuit, Event.removeAttempt p] ++ t2 := by
  have hdt := resolveDuration_snd_cases fs p
  rcases hq : resolveDuration fs p with ⟨lenq, dt⟩
  rw [hq] at hdt
  have hdtna : Event.removeAttempt p ∉ dt := by
    rcases hdt with h1 | h1 | h1 <;> simp at h1 <;> simp [h1]
  cases s with
  | false => simp [play, mem_playStartTrace] at h
  | true =>
    cases lenq with
    | none => simp [play, playWaitPhase, hq, mem_playStartTrace, hdtna] at h
    | some len =>
      cases d with
      | false => simp [play, playWaitPhase, hq, mem_playStartTrace, hdtna] at h
      | true =>
        obtain ⟨t2, ht⟩ := playWaitPhase_delete_decomp fs p len dt hq
        refine ⟨playStartTrace m p pm ++ (dt ++ [Event.sleep len]), t2, ?_⟩
        simp [play, ht]

/-- Claim C4 witness: the concrete wav playback with deletion enabled
has the stop-quit-remove pattern in its trace. -/
theorem c4_witness :
    ∃ t1 t2, (play sampleManager sampleFS [] "a.wav" true true true).trace =
      t1 ++ [Event.musicStop, Event.mixerQuit, Event.removeAttempt "a.wav"] ++ t2 :=
  c4_stop_quit_before_delete sampleManager sampleFS [] "a.wav" true true true (by decide)

/-- Claim C5: the file is removed only when `sleep_during_playback` and
`delete_file` are both set and duration resolution produced a value;
when either flag is unset or resolution failed, no removal is even
attempted and the file is untouched. -/
theorem c5_delete_guarded (m : AudioManager) (fs : FS) (devs : List String)
    (p : String) (s d pm : Bool) :
    ((play m fs devs p s d pm).fileDeleted = true →
      s = true ∧ d = true ∧ ∃ len, (resolveDuration fs p).1 = some len) ∧
    ((s = false ∨ d = false ∨ (resolveDuration fs p).1 = none) →
      (play m fs devs p s d pm).fileDeleted = false ∧
      Event.removeAttempt p ∉ (play m fs devs p s d pm).trace) := by
  have hdt := resolveDuration_snd_cases fs p
  rcases hq : resolveDuration fs p with ⟨lenq, dt⟩
  rw [hq] at hdt
  have hdtna : Event.removeAttempt p ∉ dt := by
    rcases hdt with h1 | h1 | h1 <;> simp at h1 <;> simp [h1]
  cases s <;> cases d <;> cases lenq <;> cases hrm : fs.removeResult p <;>
    simp [play, playWaitPhase, hq, hrm, mem_playStartTrace, hdtna]

/-- Claim C5 witness: with `sleep_during_playback` unset the concrete
call leaves the file alone and attempts no removal. -/
theorem c5_witness :
    (play sampleManager sampleFS [] "a.wav" false true true).fileDeleted = false ∧
    Event.removeAttempt "a.wav" ∉
      (play sampleManager sampleFS [] "a.wav" false true true).trace :=
  (c5_delete_guarded sampleManager sampleFS [] "a.wav" false true true).2 (Or.inl rfl)

/-- Claim C6: a permission-denied removal is caught: the call still
returns normally, the removal was attempted and reported, and the file
stays on disk. -/
theorem c6_permission_denied_nonfatal (m : AudioManager) (fs : FS) (devs : List String)
    (p : String) (pm : Bool) (len : ℚ)
    (hlen : (resolveDuration fs p).1 = some len)
    (hrm : fs.removeResult p = RemoveOutcome.permissionError) :
    (play m fs devs p true true pm).result = ExcOutcome.normal ∧
    (play m fs devs p true true pm).fileDeleted = false ∧
    Event.printPermissionDenied p ∈ (play m fs devs p true true pm).trace ∧
    Event.removeAttempt p ∈ (play m fs devs p true true pm).trace := by
  rcases hq : resolveDuration fs p with ⟨lenq, dt⟩
  rw [hq] at hlen
  simp at hlen
  subst hlen
  simp [play, playWaitPhase, hq, hrm]

/-- Claim C6 witness: deleting the permission-locked `locked.mp3` is
reported and non-fatal. -/
theorem c6_witness :
    (play sampleManager sampleFS [] "locked.mp3" true true true).result =
      ExcOutcome.normal ∧
    (play sampleManager sampleFS [] "locked.mp3" true true true).fileDeleted = false :=
  ⟨(c6_permission_denied_nonfatal sampleManager sampleFS [] "locked.mp3" true
      (sampleFS.mp3Length "locked.mp3") rfl rfl).1,
   (c6_permission_denied_nonfatal sampleManager sampleFS [] "locked.mp3" true
      (sampleFS.mp3Length "locked.mp3") rfl rfl).2.1⟩

/-- Claim C7: the resolved device is fixed at construction: a play call
leaves the instance state unchanged, its outcome is identical whatever
the device list has become by call time, and the call reads exactly the
construction-time resolved device when pre-initializing. -/
theorem c7_device_set_once (dn : Option String) (sdl2 : Bool) (enum : EnumResult)
    (o : InitOutcome) (h : construct dn sdl2 enum = Except.ok o)
    (fs : FS) (devs devs' : List String) (p : String) (s d pm : Bool) :
    o.manager.target_device = resolveTarget dn sdl2 enum ∧
    (play o.manager fs devs p s d pm).manager = o.manager ∧
    play o.manager fs devs p s d pm = play o.manager fs devs' p s d pm ∧
    (∀ dev, o.manager.target_device = some dev → dev.isEmpty = false →
      Event.preInit dev ∈ (play o.manager fs devs p s d pm).trace) := by
  have ho : o.manager.target_device = resolveTarget dn sdl2 enum := by
    have h2 := h
    simp only [construct, Except.ok.injEq] at h2
    rw [← h2]
  refine ⟨ho, rfl, rfl, ?_⟩
  intro dev hdev hne
  simp [play, List.mem_append, mem_playStartTrace, hdev, hne]

/-- Claim C7 witness: a concretely constructed manager is returned
unchanged by play, and the outcome is the same under two different
call-time device lists. -/
theorem c7_witness :
    (play (AudioManager.mk (some "mix") (some "MIX")) sampleFS ["A"] "a.wav"
        true false true).manager = AudioManager.mk (some "mix") (some "MIX") ∧
    play (AudioManager.mk (some "mix") (some "MIX")) sampleFS ["A"] "a.wav"
        true false true =
      play (AudioManager.mk (some "mix") (some "MIX")) sampleFS ["B"] "a.wav"
        true false true := by
  have h := c7_device_set_once (some "mix") true (EnumResult.ok ["MIX"])
    (InitOutcome.mk (AudioManager.mk (some "mix") (some "MIX"))
      [Event.printDeviceList ["MIX"], Event.printFound "MIX", Event.mixerInit])
    (by rfl) sampleFS ["A"] ["B"] "a.wav" true false true
  exact ⟨h.2.1, h.2.2.1⟩

/-- Claim C8: construction absorbs any device-enumeration failure: it
always returns successfully, an enumeration exception leaves no device
selected yet still reaches the `pygame.mixer.init()` call, and when the
resolution block actually ran the caught exception is reported. -/
theorem c8_construction_absorbs_failures (dn : Option String) (sdl2 : Bool)
    (enum : EnumResult) :
    ∃ o, construct dn sdl2 enum = Except.ok o ∧
      Event.mixerInit ∈ o.trace ∧
      (∀ e, enum = EnumResult.raise e →
        o.manager.target_device = none ∧
        ((pyTruthy dn && sdl2) = true → Event.printSetupError e ∈ o.trace)) := by
  refine ⟨_, rfl, ?_, ?_⟩
  · simp [construct]
  · rintro e rfl
    constructor
    · cases dn with
      | none => rfl
      | some name => by_cases hne : name.isEmpty <;> cases sdl2 <;>
          simp [construct, resolveTarget, hne]
    · intro hts
      simp [construct, hts]

/-- Claim C8 witness: a raising enumeration still yields a successful
construction with no device selected. -/
theorem c8_witness :
    ∃ o, construct (some "mix") true (EnumResult.raise "boom") = Except.ok o ∧
      o.manager.target_device = none := by
  obtain ⟨o, h1, _, h3⟩ :=
    c8_construction_absorbs_failures (some "mix") true (EnumResult.raise "boom")
  exact ⟨o, h1, (h3 "boom" rfl).1⟩

/-- Claim C9: after a successful wait with deletion requested, only a
permission error from `os.remove` is tolerated; any other removal error
propagates to the caller as a raised exception and the file is not
recorded as deleted. -/
theorem c9_other_delete_errors_propagate (m : AudioManager) (fs : FS)
    (devs : List String) (p : String) (pm : Bool) (len : ℚ)
    (hlen : (resolveDuration fs p).1 = some len) :
    (fs.removeResult p = RemoveOutcome.permissionError →
      (play m fs devs p true true pm).result = ExcOutcome.normal) ∧
    (∀ e, fs.removeResult p = RemoveOutcome.otherError e →
      (play m fs devs p true true pm).result = ExcOutcome.raised e ∧
      (play m fs devs p true true pm).fileDeleted = false ∧
      Event.removeAttempt p ∈ (play m fs devs p true true pm).trace) := by
  rcases hq : resolveDuration fs p with ⟨lenq, dt⟩
  rw [hq] at hlen
  simp at hlen
  subst hlen
  constructor
  · intro hrm
    simp [play, playWaitPhase, hq, hrm]
  · intro e hrm
    simp [play, playWaitPhase, hq, hrm]

/-- Claim C9 witness: removing `gone.wav` fails with a
non-permission error, which the concrete call re-raises. -/
theorem c9_witness :
    (play sampleManager sampleFS [] "gone.wav" true true true).result =
      ExcOutcome.raised "FileNotFoundError" :=
  ((c9_other_delete_errors_propagate sampleManager sampleFS [] "gone.wav" true
      ((sampleFS.wavFrames "gone.wav" : ℚ) / (sampleFS.wavRate "gone.wav" : ℚ))
      rfl).2 "FileNotFoundError" rfl).1

/-- Claim C10: the diagnostic device listing always returns normally:
missing SDL2 audio and enumeration exceptions (from either the output
or the input enumeration) are absorbed and merely reported. -/
theorem c10_list_devices_total (sdl2 : Bool) (eo ei : EnumResult) :
    ∃ t, list_devices sdl2 eo ei = Except.ok t ∧
      (sdl2 = false → t = [Event.printNoSdl2]) ∧
      (∀ e, sdl2 = true → eo = EnumResult.raise e → t = [Event.printEnumError e]) ∧
      (∀ outs e, sdl2 = true → eo = EnumResult.ok outs → ei = EnumResult.raise e →
        t = [Event.printEnumError e]) ∧
      (∀ outs ins, sdl2 = true → eo = EnumResult.ok outs → ei = EnumResult.ok ins →
        t = [Event.printDevices outs ins]) := by
  cases sdl2 <;> cases eo <;> cases ei <;>
    refine ⟨_, rfl, ?_, ?_, ?_, ?_⟩ <;> simp [list_devices]

/-- Claim C10 witness: a raising output enumeration is caught and
reported, and the call still returns normally. -/
theorem c10_witness :
    ∃ t, list_devices true (EnumResult.raise "boom") (EnumResult.ok []) = Except.ok t ∧
      t = [Event.printEnumError "boom"] := by
  obtain ⟨t, h1, _, h3, _, _⟩ :=
    c10_list_devices_total true (EnumResult.raise "boom") (EnumResult.ok [])
  exact ⟨t, h1, h3 "boom" rfl rfl⟩
